import Mathlib

/-!
Verification of the cloudwatch-dump pipeline (src/cloudwatch_dump/cloudwatch_dump.py)
against its natural-language specification.

The Python source is shallowly embedded below.  Instants and durations are
modelled as integers (minutes since an epoch for instants produced by
`get_time_range`; the unit is irrelevant to the claims).  Provider calls are
modelled by passing the provider as an explicit function from requests to
responses; the number and content of issued requests is tracked explicitly.
Python dictionaries returned by the metric-listing call are modelled as
key/value association lists so that the source's `result.get(key)` accesses
(including accesses with a key the provider never uses) are embedded faithfully.
Fallible steps (a raised exception) are modelled with `Option`/`Except`.
-/

namespace CloudwatchDump

/-- A metric identity as returned by the provider's metric-listing call:
namespace, metric name and dimension (name, value) pairs. -/
structure Metric where
  Namespace : String
  MetricName : String
  Dimensions : List (String × String)
deriving DecidableEq

/-- A value stored in a metric-listing response dictionary: either the list of
metrics of the page or a continuation-token string. -/
inductive RespVal where
  | metrics (ms : List Metric)
  | token (t : String)
deriving DecidableEq

/-- A Python dictionary response, modelled as a key/value association list. -/
def PyDict : Type := List (String × RespVal)

/-- Embedding of Python `d.get(k)`: `none` when the key is absent. -/
def dictGet (d : PyDict) (k : String) : Option RespVal :=
  List.lookup k d

/-- Python truthiness of an optional dictionary value: `None` is falsy, a list
is truthy iff nonempty, a string is truthy iff nonempty. -/
def pyTruthy : Option RespVal → Bool
  | none => false
  | some (RespVal.metrics ms) => !ms.isEmpty
  | some (RespVal.token t) => !t.isEmpty

/-- Embedding of the attribute access `result.next_token` (source line 45).
A Python dict object has no attribute named that way, so the access always
raises `AttributeError`; the embedding returns `none` for every dictionary. -/
def dictAttrNextToken (_ : PyDict) : Option String := none

/-- A request of the provider's metric-listing call.  `NextToken = none`
models the first call of the source, which omits the token keyword. -/
structure ListMetricsRequest where
  Namespace : String
  Dimensions : List (String × String)
  NextToken : Option String
deriving DecidableEq

/-- Embedding of the `while True` pagination loop of `get_metrics`
(source lines 35-45).  `fuel` bounds the number of iterations (the source
loop has no bound; every claim is evaluated at a sufficient fuel).  The
returned number counts the provider calls issued.  Errors:
fuel exhaustion models nontermination; a page without a usable `Metrics`
value models the `TypeError` raised by `list(None)` on line 42; the
continuation branch models the `AttributeError` raised on line 45. -/
def get_metrics_go (provider : ListMetricsRequest → PyDict) (nsp : String)
    (dims : List (String × String)) :
    Nat → Option String → List Metric → Nat × Except String (List Metric)
  | 0, _, _ => (0, Except.error "nontermination")
  | Nat.succ fuel, next_token, buf =>
    let result : PyDict :=
      match next_token with
      | some tok => provider { Namespace := nsp, Dimensions := dims, NextToken := some tok }
      | none => provider { Namespace := nsp, Dimensions := dims, NextToken := none }
    match dictGet result "Metrics" with
    | some (RespVal.metrics ms) =>
      let buf2 := buf ++ ms
      if pyTruthy (dictGet result "next_token") then
        match dictAttrNextToken result with
        | some tok2 =>
          let out := get_metrics_go provider nsp dims fuel (some tok2) buf2
          (out.1 + 1, out.2)
        | none => (1, Except.error "AttributeError: dict object has no attribute next_token")
      else
        (1, Except.ok buf2)
    | _ => (1, Except.error "TypeError: response has no usable Metrics value")

/-- Truthiness of the object returned by `boto3.client` (source lines 30-31
and 54-55): a client object is always truthy, so `if not client` never fires. -/
def clientTruthy : Bool := true

/-- Embedding of `get_metrics` (source lines 26-46).  Returns the number of
provider calls issued together with the outcome. -/
def get_metrics (region : String) (nsp : String) (dims : List (String × String))
    (provider : ListMetricsRequest → PyDict) (fuel : Nat) :
    Nat × Except String (List Metric) :=
  if clientTruthy then
    get_metrics_go provider nsp dims fuel none []
  else
    (0, Except.error ("Failed to connect to region: " ++ region))

/-- Modelled from the spec: `RichDateTime.__mod__` lives in the repository's
`util` module, which is absent from src.  Per the spec (section 4.1), `x % d`
rounds `x` down to the nearest interval boundary, i.e. subtracts the
remainder of `x` modulo `d`. -/
def richMod (x d : Int) : Int := x - x % d

/-- Embedding of `get_time_range` (source lines 12-23).  Instants are minutes
since an epoch.  The anchor argument carries the outcome of
`RichDateTime.strptime` on `options.time`: `none` means no `--time` argument
was given; `some none` means the string was given but malformed (`strptime`
raises, modelled as the overall result `none`); `some (some t)` means it
parsed to the instant `t`.  `now` is the current local time.
`RichDateTime.from_datetime` is the identity on instants. -/
def get_time_range (time_str : Option (Option Int)) (now : Int) (interval : Int) :
    Option (Int × Int) :=
  let d := interval
  let t? : Option Int :=
    match time_str with
    | some parsed => parsed
    | none => some (richMod now d - d)
  t?.map (fun t => (t, t + d))

/-- Embedding of Python `str.lower()` (ASCII case folding, which covers every
statistic name the program uses). -/
def pyLower (s : String) : String := String.mk (s.data.map Char.toLower)

/-- Fuel-driven decimal digit expansion; any fuel above the number itself
yields the digits of the number, most significant first. -/
def natDigitsGo : Nat → Nat → List Char
  | 0, _ => []
  | Nat.succ fuel, n =>
    if n < 10 then [Char.ofNat (48 + n % 10)]
    else natDigitsGo fuel (n / 10) ++ [Char.ofNat (48 + n % 10)]

/-- Decimal digit list of a natural number, most significant first — the
embedding of Python `str(index)` as used by the f-string on source line 60. -/
def natDigits (n : Nat) : List Char := natDigitsGo (n + 1) n

/-- Decimal rendering of a natural number as a string. -/
def natToStr (n : Nat) : String := String.mk (natDigits n)

/-- The inner `MetricStat` dictionary of a query descriptor (source line 60). -/
structure MetricStat where
  Metric : Metric
  Period : Int
  Stat : String
deriving DecidableEq

/-- One query descriptor of the batch built on source line 60. -/
structure MetricDataQuery where
  Id : String
  MetricStat : MetricStat
deriving DecidableEq

/-- Embedding of the descriptor-batch comprehension of `get_data`
(source line 60): `enumerate(metrics)` is the outer loop, the statistics list
the inner one, and the descriptor id is the lowercased statistic name
concatenated with the decimal metric index. -/
def build_metric_data (metrics : List Metric) (statistics_list : List String)
    (period_in_sec : Int) : List MetricDataQuery :=
  (List.enumFrom 0 metrics).flatMap (fun p =>
    statistics_list.map (fun stat =>
      { Id := pyLower stat ++ natToStr p.1,
        MetricStat := { Metric := p.2, Period := period_in_sec, Stat := stat } }))

/-- One correlated record of `get_data`'s return value (source line 68):
the raw result entry together with the metric of the descriptor at the same
position.  The descriptor's statistic is not part of the record. -/
structure ResultEntry (α : Type) where
  Data : α
  Metric : Metric
deriving DecidableEq

/-- Embedding of the correlation comprehension of `get_data` (source line 68),
walking the provider's result entries with a running index.  `none` models the
`IndexError` raised when the index reaches past the descriptor batch. -/
def correlate_go (metric_data : List MetricDataQuery) :
    Nat → List α → Option (List (ResultEntry α))
  | _, [] => some []
  | index, datapoint :: rest =>
    match metric_data.get? index with
    | none => none
    | some q =>
      (correlate_go metric_data (index + 1) rest).map
        (fun tail => { Data := datapoint, Metric := q.MetricStat.Metric } :: tail)

/-- The correlation comprehension, started at index 0 as `enumerate` does. -/
def correlate (metric_data : List MetricDataQuery) (results : List α) :
    Option (List (ResultEntry α)) :=
  correlate_go metric_data 0 results

/-- A request of the provider's batched statistical-query call
(source lines 62-66). -/
structure GetMetricDataRequest where
  MetricDataQueries : List MetricDataQuery
  StartTime : Int
  EndTime : Int
deriving DecidableEq

/-- Outcome of `get_data`: the provider requests issued and the correlated
records (`none` when correlation raises). -/
structure GetDataResult (α : Type) where
  calls : List GetMetricDataRequest
  result : Option (List (ResultEntry α))
deriving DecidableEq

/-- Embedding of `get_data` (source lines 49-68).  The provider is an explicit
function from the request to the list of `MetricDataResults` entries; the
unused local `p = timedelta(minutes=period_in_sec)` of source line 58 has no
observable effect and is omitted. -/
def get_data (metrics : List Metric) (statistics_list : List String)
    (start endT : Int) (period_in_sec : Int)
    (provider : GetMetricDataRequest → List α) : GetDataResult α :=
  if clientTruthy then
    let metric_data := build_metric_data metrics statistics_list period_in_sec
    let req : GetMetricDataRequest :=
      { MetricDataQueries := metric_data, StartTime := start, EndTime := endT }
    let data := provider req
    { calls := [req], result := correlate metric_data data }
  else
    { calls := [], result := none }

/-- Externally visible events of one `main` run (source lines 117-147):
the printed lines of check mode, the batched provider call issued inside
`get_data`, and the snapshot write with the trailing prints. -/
inductive Event (α : Type) where
  | printStart (t : Int)
  | printEnd (t : Int)
  | printPeriod (p : Int)
  | printQuery (m : Metric) (stat : String)
  | queryCall (req : GetMetricDataRequest)
  | fileWrite (filename : String) (data : List (ResultEntry α))
  | printWrote (filename : String)
  | printData (data : List (ResultEntry α))
deriving DecidableEq

/-- Embedding of `main` (source lines 117-147).  Returns the ordered list of
externally visible events together with a success flag; a `false` flag models
the process aborting on an uncaught exception, with the events emitted before
the abort.  The statistics list is the hard-coded `['Average', 'Sum']` of
source line 121. -/
def main (time_str : Option (Option Int)) (interval period now : Int)
    (region nsp : String) (dims : List (String × String))
    (listProvider : ListMetricsRequest → PyDict) (listFuel : Nat)
    (dataProvider : GetMetricDataRequest → List α)
    (check : Bool) (filename : String) : List (Event α) × Bool :=
  let statistics_list := ["Average", "Sum"]
  match get_time_range time_str now interval with
  | none => ([], false)
  | some (start, endT) =>
    match (get_metrics region nsp dims listProvider listFuel).2 with
    | Except.error _ => ([], false)
    | Except.ok metrics =>
      if check then
        let query_events := metrics.flatMap (fun m =>
          statistics_list.map (fun s => Event.printQuery m s))
        ([Event.printStart start, Event.printEnd endT, Event.printPeriod period]
          ++ query_events, true)
      else
        let out := get_data metrics statistics_list start endT period dataProvider
        let callEvents := out.calls.map Event.queryCall
        match out.result with
        | none => (callEvents, false)
        | some data =>
          (callEvents
            ++ [Event.fileWrite filename data, Event.printWrote filename,
                Event.printData data], true)

/-- A concrete metric identity used in counterexamples and witnesses. -/
def cwMetric1 : Metric :=
  { Namespace := "AWS/EC2", MetricName := "CPUUtilization",
    Dimensions := [("InstanceId", "i-1")] }

/-- A second concrete metric identity. -/
def cwMetric2 : Metric :=
  { Namespace := "AWS/EC2", MetricName := "CPUUtilization",
    Dimensions := [("InstanceId", "i-2")] }

/-- A provider serving two pages of metrics, the first carrying a
continuation token under the provider's canonical response key `NextToken`. -/
def twoPageProvider (r : ListMetricsRequest) : PyDict :=
  match r.NextToken with
  | none =>
    [("Metrics", RespVal.metrics [cwMetric1]), ("NextToken", RespVal.token "page2")]
  | some _ => [("Metrics", RespVal.metrics [cwMetric2])]

/-! ### Decimal-digit helper lemmas -/

/-- The character `c` is a decimal digit. -/
abbrev DigitChar (c : Char) : Prop := 48 ≤ c.toNat ∧ c.toNat ≤ 57

/-- Numeric value of a digit list, most significant first. -/
def decodeDigits (l : List Char) : Nat :=
  l.foldl (fun a c => a * 10 + (c.toNat - 48)) 0

theorem toNat_digitChar (r : Nat) (h : r < 10) : (Char.ofNat (48 + r)).toNat = 48 + r := by
  interval_cases r <;> decide

theorem digitChar_isDigit (r : Nat) (h : r < 10) : DigitChar (Char.ofNat (48 + r)) := by
  interval_cases r <;> decide

theorem natDigitsGo_congr :
    ∀ (f1 f2 n : Nat), n < f1 → n < f2 → natDigitsGo f1 n = natDigitsGo f2 n := by
  intro f1
  induction f1 with
  | zero => intro f2 n h1 _; omega
  | succ f ih =>
    intro f2 n h1 h2
    cases f2 with
    | zero => omega
    | succ g =>
      simp only [natDigitsGo]
      by_cases hn : n < 10
      · simp [hn]
      · have hd : n / 10 < n := Nat.div_lt_self (by omega) (by omega)
        simp only [hn, if_false]
        rw [ih g (n / 10) (by omega) (by omega)]

theorem natDigits_eq (n : Nat) :
    natDigits n = if n < 10 then [Char.ofNat (48 + n % 10)]
      else natDigits (n / 10) ++ [Char.ofNat (48 + n % 10)] := by
  show natDigitsGo (n + 1) n = _
  by_cases hn : n < 10
  · simp [natDigitsGo, hn]
  · have hd : n / 10 < n := Nat.div_lt_self (by omega) (by omega)
    simp only [natDigitsGo, hn, if_false]
    rw [natDigitsGo_congr n (n / 10 + 1) (n / 10) (by omega) (by omega)]
    rfl

theorem natDigits_ne_nil (n : Nat) : natDigits n ≠ [] := by
  rw [natDigits_eq]
  by_cases hn : n < 10 <;> simp [hn]

theorem natDigits_all_digit (n : Nat) : ∀ c ∈ natDigits n, DigitChar c := by
  induction n using Nat.strong_induction_on with
  | _ n ih =>
    rw [natDigits_eq]
    by_cases hn : n < 10
    · simp only [hn, if_true, List.mem_singleton]
      intro c hc
      subst hc
      exact digitChar_isDigit (n % 10) (by omega)
    · have hd : n / 10 < n := Nat.div_lt_self (by omega) (by omega)
      simp only [hn, if_false, List.mem_append, List.mem_singleton]
      intro c hc
      rcases hc with hc | hc
      · exact ih (n / 10) hd c hc
      · subst hc
        exact digitChar_isDigit (n % 10) (by omega)

theorem decodeDigits_append_singleton (xs : List Char) (c : Char) :
    decodeDigits (xs ++ [c]) = decodeDigits xs * 10 + (c.toNat - 48) := by
  simp [decodeDigits, List.foldl_append]

theorem decodeDigits_natDigits (n : Nat) : decodeDigits (natDigits n) = n := by
  induction n using Nat.strong_induction_on with
  | _ n ih =>
    rw [natDigits_eq]
    by_cases hn : n < 10
    · simp only [hn, if_true]
      simp [decodeDigits, toNat_digitChar (n % 10) (by omega)]
      omega
    · have hd : n / 10 < n := Nat.div_lt_self (by omega) (by omega)
      simp only [hn, if_false]
      rw [decodeDigits_append_singleton, ih (n / 10) hd,
        toNat_digitChar (n % 10) (by omega)]
      omega

theorem natDigits_injective {m n : Nat} (h : natDigits m = natDigits n) : m = n := by
  have hm := decodeDigits_natDigits m
  rw [h, decodeDigits_natDigits] at hm
  omega

theorem natToStr_data (n : Nat) : (natToStr n).data = natDigits n := rfl

theorem natToStr_injective {m n : Nat} (h : natToStr m = natToStr n) : m = n := by
  apply natDigits_injective
  rw [← natToStr_data, ← natToStr_data, h]

theorem string_data_append (s t : String) : (s ++ t).data = s.data ++ t.data := rfl

/-- Splitting an equation between concatenations of a digit-free part and an
all-digit part: the parts agree. -/
theorem append_digit_split :
    ∀ (a c b d : List Char),
      (∀ x ∈ a, ¬ DigitChar x) → (∀ x ∈ c, ¬ DigitChar x) →
      (∀ x ∈ b, DigitChar x) → (∀ x ∈ d, DigitChar x) →
      a ++ b = c ++ d → a = c ∧ b = d := by
  intro a
  induction a with
  | nil =>
    intro c b d _ hc hb _ h
    cases c with
    | nil => exact ⟨rfl, h⟩
    | cons y c2 =>
      exfalso
      have hy : y ∈ ([] : List Char) ++ b := by
        rw [h]; exact List.mem_cons_self y (c2 ++ d)
      exact hc y (List.mem_cons_self y c2) (hb y (by simpa using hy))
  | cons x a2 ih =>
    intro c b d ha hc hb hd h
    cases c with
    | nil =>
      exfalso
      have hx : x ∈ ([] : List Char) ++ d := by
        rw [← h]; exact List.mem_cons_self x (a2 ++ b)
      exact ha x (List.mem_cons_self x a2) (hd x (by simpa using hx))
    | cons y c2 =>
      simp only [List.cons_append] at h
      injection h with h1 h2
      subst h1
      have := ih c2 b d (fun z hz => ha z (List.mem_cons_of_mem x hz))
        (fun z hz => hc z (List.mem_cons_of_mem x hz)) hb hd h2
      exact ⟨by rw [this.1], this.2⟩

/-- The descriptor-id scheme is injective when the lowered statistic names are
digit-free: equal ids force equal lowered names and equal metric indices. -/
theorem id_scheme_inj (s1 s2 : String) (i j : Nat)
    (h1 : ∀ c ∈ (pyLower s1).data, ¬ DigitChar c)
    (h2 : ∀ c ∈ (pyLower s2).data, ¬ DigitChar c)
    (h : pyLower s1 ++ natToStr i = pyLower s2 ++ natToStr j) :
    pyLower s1 = pyLower s2 ∧ i = j := by
  have hdata : (pyLower s1).data ++ natDigits i = (pyLower s2).data ++ natDigits j := by
    rw [← natToStr_data, ← natToStr_data, ← string_data_append, ← string_data_append, h]
  have hsplit := append_digit_split (pyLower s1).data (pyLower s2).data
    (natDigits i) (natDigits j) h1 h2
    (natDigits_all_digit i) (natDigits_all_digit j) hdata
  exact ⟨String.ext hsplit.1, natDigits_injective hsplit.2⟩

/-! ### Batch-builder lemmas -/

theorem mem_enumFrom_fst_le {α : Type} :
    ∀ (l : List α) (i : Nat) (p : Nat × α), p ∈ List.enumFrom i l → i ≤ p.1 := by
  intro l
  induction l with
  | nil => intro i p h; simp [List.enumFrom] at h
  | cons x xs ih =>
    intro i p h
    simp only [List.enumFrom, List.mem_cons] at h
    rcases h with h | h
    · subst h; exact Nat.le_refl i
    · have := ih (i + 1) p h
      omega

theorem pairwise_fst_lt_enumFrom {α : Type} :
    ∀ (l : List α) (i : Nat), (List.enumFrom i l).Pairwise (fun p q => p.1 < q.1) := by
  intro l
  induction l with
  | nil => intro i; simp [List.enumFrom]
  | cons x xs ih =>
    intro i
    simp only [List.enumFrom]
    refine List.Pairwise.cons ?_ (ih (i + 1))
    intro q hq
    have := mem_enumFrom_fst_le xs (i + 1) q hq
    omega

theorem build_metric_data_map_id (metrics : List Metric) (stats : List String) (p : Int) :
    (build_metric_data metrics stats p).map (fun q => q.Id)
      = (List.enumFrom 0 metrics).flatMap
          (fun pr => stats.map (fun st => pyLower st ++ natToStr pr.1)) := by
  simp only [build_metric_data, List.map_flatMap, List.map_map]
  rfl

theorem enumFrom_flatMap_map_length {α β : Type} (stats : List String) (g : Nat × α → String → β) :
    ∀ (l : List α) (i : Nat),
      ((List.enumFrom i l).flatMap (fun pr => stats.map (g pr))).length
        = l.length * stats.length := by
  intro l
  induction l with
  | nil => intro i; simp [List.enumFrom]
  | cons x xs ih =>
    intro i
    simp only [List.enumFrom, List.flatMap_cons, List.length_append, List.length_map,
      List.length_cons, ih (i + 1)]
    ring

theorem build_metric_data_length (metrics : List Metric) (stats : List String) (p : Int) :
    (build_metric_data metrics stats p).length = metrics.length * stats.length := by
  have h := congrArg List.length (build_metric_data_map_id metrics stats p)
  rw [List.length_map] at h
  rw [h]
  exact enumFrom_flatMap_map_length stats (fun pr st => pyLower st ++ natToStr pr.1) metrics 0

theorem build_metric_data_period (metrics : List Metric) (stats : List String) (p : Int) :
    ∀ q ∈ build_metric_data metrics stats p, q.MetricStat.Period = p := by
  intro q hq
  simp only [build_metric_data, List.mem_flatMap, List.mem_map] at hq
  obtain ⟨pr, _, st, _, rfl⟩ := hq
  rfl

theorem build_metric_data_id_nodup (metrics : List Metric) (stats : List String) (p : Int)
    (hN : (stats.map pyLower).Nodup)
    (hD : ∀ s ∈ stats, ∀ c ∈ (pyLower s).data, ¬ DigitChar c) :
    ((build_metric_data metrics stats p).map (fun q => q.Id)).Nodup := by
  rw [build_metric_data_map_id]
  rw [List.nodup_flatMap]
  constructor
  · intro pr _
    have : stats.map (fun st => pyLower st ++ natToStr pr.1)
        = (stats.map pyLower).map (fun t => t ++ natToStr pr.1) := by
      rw [List.map_map]
      rfl
    rw [this]
    refine List.Nodup.map_on ?_ hN
    intro x _ y _ hxy
    exact List.append_cancel_right (by
      rw [← string_data_append, ← string_data_append, hxy])
      |> fun h => String.ext h
  · refine (pairwise_fst_lt_enumFrom metrics 0).imp ?_
    intro a b hab
    simp only [Function.onFun, List.Disjoint]
    intro z hza hzb
    simp only [List.mem_map] at hza hzb
    obtain ⟨s1, hs1, hz1⟩ := hza
    obtain ⟨s2, hs2, hz2⟩ := hzb
    have := id_scheme_inj s1 s2 a.1 b.1 (hD s1 hs1) (hD s2 hs2) (hz1.trans hz2.symm)
    omega

/-! ### Correlation lemmas -/

theorem correlate_go_spec {α : Type} (md : List MetricDataQuery) :
    ∀ (rs : List α) (idx : Nat), idx + rs.length ≤ md.length →
      ∃ l, correlate_go md idx rs = some l ∧ l.length = rs.length ∧
        ∀ (i : Nat) (dp : α) (q : MetricDataQuery),
          rs.get? i = some dp → md.get? (idx + i) = some q →
          l.get? i = some { Data := dp, Metric := q.MetricStat.Metric } := by
  intro rs
  induction rs with
  | nil =>
    intro idx _
    refine ⟨[], rfl, rfl, ?_⟩
    intro i dp q hdp _
    simp [List.get?] at hdp
  | cons dp rest ih =>
    intro idx hlen
    simp only [List.length_cons] at hlen
    have hidx : idx < md.length := by omega
    obtain ⟨q0, hq0⟩ : ∃ q0, md.get? idx = some q0 := by
      cases hmd : md.get? idx with
      | none => exact absurd (List.get?_eq_none.mp hmd) (by omega)
      | some q0 => exact ⟨q0, rfl⟩
    obtain ⟨l2, hl2, hlen2, hget2⟩ := ih (idx + 1) (by omega)
    refine ⟨{ Data := dp, Metric := q0.MetricStat.Metric } :: l2, ?_, by simp [hlen2], ?_⟩
    · simp only [correlate_go, hq0, hl2]
      rfl
    · intro i dp2 q hdp hq
      cases i with
      | zero =>
        simp only [List.get?] at hdp ⊢
        rw [Nat.add_zero] at hq
        rw [hq0] at hq
        injection hdp with hdp
        injection hq with hq
        rw [hdp, hq]
      | succ i =>
        simp only [List.get?] at hdp ⊢
        have harith : idx + (i + 1) = (idx + 1) + i := by omega
        rw [harith] at hq
        exact hget2 i dp2 q hdp hq

/-! ### Claims -/

/-- Claim C1 (code bug, evaluation at the failing input): at a provider
returning two pages, the first carrying a continuation token under the
provider's canonical response key `NextToken`, `get_metrics` issues exactly
one call and returns only the first page — against the claim's expected two
calls returning both pages' concatenation.  The source's stop check reads the
key `next_token` (line 43), which the response never carries, and its
forwarding step reads the attribute `next_token` (line 45), which a dict does
not have. -/
theorem C1_pagination_single_page :
    get_metrics "us-east-1" "" [] twoPageProvider 5 = (1, Except.ok [cwMetric1])
    ∧ [cwMetric1] ≠ [cwMetric1, cwMetric2] := by
  exact ⟨rfl, by decide⟩

/-- Claim C2 (counterexample): two runs of `get_data` that differ only in the
submitted statistic produce identical correlated records, so a record cannot
pair its datapoints with the statistic of the descriptor at its position —
the source copies only the descriptor's metric into the record (line 68),
never its statistic. -/
theorem C2_counterexample :
    (get_data (α := Nat) [cwMetric1] ["Average"] 0 60 60 (fun _ => [7])).result
      = (get_data (α := Nat) [cwMetric1] ["Sum"] 0 60 60 (fun _ => [7])).result
    ∧ "Average" ≠ "Sum" := by
  exact ⟨rfl, by decide⟩

/-- Claim C2 (amended): for a provider response in submitted order with at
most one entry per descriptor, the i-th correlated record produced by
`get_data` pairs the i-th result entry with exactly the metric of the i-th
submitted descriptor; the descriptor's statistic is not copied into the
record. -/
theorem C2_positional_metric (α : Type) (metrics : List Metric) (stats : List String)
    (s e p : Int) (provider : GetMetricDataRequest → List α) (i : Nat) (dp : α)
    (q : MetricDataQuery)
    (hlen : (provider ⟨build_metric_data metrics stats p, s, e⟩).length
        ≤ (build_metric_data metrics stats p).length)
    (hdp : (provider ⟨build_metric_data metrics stats p, s, e⟩).get? i = some dp)
    (hq : (build_metric_data metrics stats p).get? i = some q) :
    ∃ l, (get_data metrics stats s e p provider).result = some l ∧
      l.get? i = some { Data := dp, Metric := q.MetricStat.Metric } := by
  obtain ⟨l, hl, _, hget⟩ := correlate_go_spec (build_metric_data metrics stats p)
    (provider ⟨build_metric_data metrics stats p, s, e⟩) 0 (by omega)
  refine ⟨l, ?_, ?_⟩
  · simp only [get_data, clientTruthy, if_true, correlate]
    exact hl
  · exact hget i dp q hdp (by rw [Nat.zero_add]; exact hq)

/-- Claim C2 witness: concrete two-descriptor batch, two in-order results;
the record at position 1 pairs the second result with the metric of the
second descriptor. -/
theorem C2_positional_metric_witness :
    ∃ l, (get_data [cwMetric1] ["Average", "Sum"] 0 60 60
        (fun _ => [(7 : Nat), 8])).result = some l
      ∧ l.get? 1 = some { Data := 8, Metric := cwMetric1 } := by
  have h := C2_positional_metric Nat [cwMetric1] ["Average", "Sum"] 0 60 60
    (fun _ => [7, 8]) 1 8
    { Id := "sum0", MetricStat := { Metric := cwMetric1, Period := 60, Stat := "Sum" } }
    (by decide) (by decide) (by decide)
  exact h

/-- Claim C3 (amended): for every catalog and statistics list the batch has
exactly M times S descriptors, each carrying the uniformly copied period;
the descriptor ids are pairwise distinct provided the lowercased statistic
names are pairwise distinct and contain no decimal-digit characters. -/
theorem C3_batch (metrics : List Metric) (stats : List String) (p : Int) :
    (build_metric_data metrics stats p).length = metrics.length * stats.length
    ∧ (∀ q ∈ build_metric_data metrics stats p, q.MetricStat.Period = p)
    ∧ ((stats.map pyLower).Nodup →
        (∀ s ∈ stats, ∀ c ∈ (pyLower s).data, ¬ DigitChar c) →
        ((build_metric_data metrics stats p).map (fun q => q.Id)).Nodup) :=
  ⟨build_metric_data_length metrics stats p, build_metric_data_period metrics stats p,
    fun hN hD => build_metric_data_id_nodup metrics stats p hN hD⟩

/-- Twelve distinct concrete metrics, indices 0 through 11. -/
def twelveMetrics : List Metric :=
  (List.range 12).map (fun i =>
    { Namespace := "AWS/EC2", MetricName := natToStr i, Dimensions := [] })

/-- Claim C3 (counterexample): with the two distinct statistics A and A1 and
a twelve-metric catalog, descriptor (metric 11, statistic A) and descriptor
(metric 1, statistic A1) both receive the id a11, so the batch ids are not
pairwise distinct. -/
theorem C3_counterexample :
    "A" ≠ "A1"
    ∧ ¬ ((build_metric_data twelveMetrics ["A", "A1"] 60).map (fun q => q.Id)).Nodup := by
  exact ⟨by decide, by decide⟩

/-- Claim C3 witness: the program's own statistics list on a two-metric
catalog gives four descriptors with pairwise distinct ids. -/
theorem C3_batch_witness :
    (build_metric_data [cwMetric1, cwMetric2] ["Average", "Sum"] 60).length = 4
    ∧ ((build_metric_data [cwMetric1, cwMetric2] ["Average", "Sum"] 60).map
        (fun q => q.Id)).Nodup := by
  have h := C3_batch [cwMetric1, cwMetric2] ["Average", "Sum"] 60
  exact ⟨h.1.trans (by decide), h.2.2 (by decide) (by decide)⟩

/-- Claim C4 (counterexample): at interval 0 with an anchor, the produced
window has end equal to start, violating the claimed end greater than start
which the claim asserts for every interval. -/
theorem C4_counterexample :
    get_time_range (some (some 0)) 0 0 = some (0, 0) ∧ ¬ ((0 : Int) < 0) := by
  exact ⟨by decide, by decide⟩

/-- Claim C4 (amended): for every positive interval I, any window produced by
`get_time_range` satisfies end minus start equals I and end greater than
start; with a parsed anchor, start is the anchor and end is anchor plus I. -/
theorem C4_window (ts : Option (Option Int)) (now I s e : Int) (hI : 0 < I)
    (h : get_time_range ts now I = some (s, e)) :
    e - s = I ∧ s < e ∧ ∀ a, ts = some (some a) → s = a ∧ e = a + I := by
  cases ts with
  | none =>
    simp [get_time_range, richMod] at h
    refine ⟨by omega, by omega, ?_⟩
    intro a ha
    exact absurd ha (by simp)
  | some parsed =>
    cases parsed with
    | none => simp [get_time_range] at h
    | some a0 =>
      simp [get_time_range] at h
      refine ⟨by omega, by omega, ?_⟩
      intro a ha
      have h2 : a0 = a := by
        injection ha with ha2
        injection ha2
      omega

/-- Claim C4 witness: anchor 30, interval 60 gives the window from 30 to 90. -/
theorem C4_window_witness : (90 : Int) - 30 = 60 ∧ (30 : Int) < 90 := by
  have h := C4_window (some (some 30)) 0 60 30 90 (by decide) (by decide)
  exact ⟨h.1, h.2.1⟩

/-- Claim C5 (counterexample): at current time 70 and interval 60, the
produced start is 0, one full interval before the claimed nearest boundary
70 minus 70 mod 60, which is 60. -/
theorem C5_counterexample :
    get_time_range none 70 60 = some (0, 60) ∧ (0 : Int) ≠ 70 - 70 % 60 := by
  exact ⟨by decide, by decide⟩

/-- Claim C5 (amended): with no anchor and a positive interval, the start is
the nearest interval boundary below now minus one further interval, and the
end is that boundary itself (so end equals start plus the interval). -/
theorem C5_no_anchor (now I : Int) (_hI : 0 < I) :
    get_time_range none now I = some (now - now % I - I, now - now % I) := by
  simp [get_time_range, richMod]

/-- Claim C5 witness: now 130, interval 60 gives the window from 60 to 120. -/
theorem C5_no_anchor_witness : get_time_range none 130 60 = some (60, 120) := by
  exact (C5_no_anchor 130 60 (by decide)).trans (by decide)

/-- Claim C6 (counterexample): with an empty catalog, `get_data` still issues
a batched statistical-query provider call, against the claim that no such
call is made at all. -/
theorem C6_counterexample :
    (get_data (α := Nat) [] ["Average", "Sum"] 0 60 60 (fun _ => [])).calls ≠ [] := by
  decide

/-- Claim C6 (amended): an empty catalog yields zero descriptors and zero
result records, but the batched query call is still issued, exactly once,
carrying an empty query list; the records are empty provided the provider
returns no result entries for the empty query. -/
theorem C6_empty_catalog (α : Type) (stats : List String) (s e p : Int)
    (provider : GetMetricDataRequest → List α)
    (hp : provider { MetricDataQueries := [], StartTime := s, EndTime := e } = []) :
    build_metric_data [] stats p = []
    ∧ get_data ([] : List Metric) stats s e p provider
        = { calls := [{ MetricDataQueries := [], StartTime := s, EndTime := e }],
            result := some [] } := by
  refine ⟨rfl, ?_⟩
  simp only [get_data, clientTruthy, if_true]
  have hb : build_metric_data ([] : List Metric) stats p = [] := rfl
  rw [hb, hp]
  rfl

/-- Claim C6 witness: concrete empty-catalog run. -/
theorem C6_empty_catalog_witness :
    get_data (α := Nat) [] ["Average", "Sum"] 0 60 60 (fun _ => [])
      = { calls := [{ MetricDataQueries := [], StartTime := 0, EndTime := 60 }],
          result := some [] } := by
  exact (C6_empty_catalog Nat ["Average", "Sum"] 0 60 60 (fun _ => []) rfl).2

/-- A provider serving a single page of one metric with no continuation
token. -/
def onePageProvider (_ : ListMetricsRequest) : PyDict :=
  [("Metrics", RespVal.metrics [cwMetric1])]

/-- Claim C7: a snapshot file write happens only when window resolution,
discovery and the batched query all succeeded; if window resolution or
discovery raises, the run aborts with no events at all, and if correlation
of the batched query fails, the run aborts having issued only the query
call — in every failure case no file write occurs. -/
theorem C7_abort_before_write (α : Type) (time_str : Option (Option Int))
    (interval period now : Int) (region nsp : String) (dims : List (String × String))
    (listProvider : ListMetricsRequest → PyDict) (listFuel : Nat)
    (dataProvider : GetMetricDataRequest → List α) (check : Bool) (filename : String)
    (tr : List (Event α)) (ok : Bool)
    (hmain : main time_str interval period now region nsp dims listProvider listFuel
        dataProvider check filename = (tr, ok)) :
    (get_time_range time_str now interval = none → tr = [] ∧ ok = false)
    ∧ (∀ msg, (get_metrics region nsp dims listProvider listFuel).2 = Except.error msg →
        tr = [] ∧ ok = false)
    ∧ (∀ s e ms, get_time_range time_str now interval = some (s, e) →
        (get_metrics region nsp dims listProvider listFuel).2 = Except.ok ms →
        check = false →
        (get_data ms ["Average", "Sum"] s e period dataProvider).result = none →
        tr = (get_data ms ["Average", "Sum"] s e period dataProvider).calls.map
          Event.queryCall ∧ ok = false)
    ∧ (∀ fn2 d, Event.fileWrite fn2 d ∈ tr →
        ok = true ∧ check = false ∧ fn2 = filename ∧
        ∃ s e ms, get_time_range time_str now interval = some (s, e) ∧
          (get_metrics region nsp dims listProvider listFuel).2 = Except.ok ms ∧
          (get_data ms ["Average", "Sum"] s e period dataProvider).result = some d) := by
  cases htime : get_time_range time_str now interval with
  | none =>
    simp [main, htime] at hmain
    obtain ⟨h1, h2⟩ := hmain
    subst h1; subst h2
    refine ⟨fun _ => ⟨rfl, rfl⟩, fun msg _ => ⟨rfl, rfl⟩, ?_, ?_⟩
    · intro s e ms hse
      exact absurd hse (by simp)
    · intro fn2 d hmem
      simp at hmem
  | some se =>
    obtain ⟨s0, e0⟩ := se
    cases hm : (get_metrics region nsp dims listProvider listFuel).2 with
    | error msg0 =>
      simp [main, htime, hm] at hmain
      obtain ⟨h1, h2⟩ := hmain
      subst h1; subst h2
      refine ⟨?_, fun msg _ => ⟨rfl, rfl⟩, ?_, ?_⟩
      · intro h0
        exact absurd h0 (by simp)
      · intro s e ms _ hms
        exact absurd hms (by simp)
      · intro fn2 d hmem
        simp at hmem
    | ok ms0 =>
      cases check with
      | true =>
        simp [main, htime, hm] at hmain
        obtain ⟨h1, h2⟩ := hmain
        subst h1; subst h2
        refine ⟨?_, ?_, ?_, ?_⟩
        · intro h0
          exact absurd h0 (by simp)
        · intro msg hms
          exact absurd hms (by simp)
        · intro s e ms _ _ hcheck
          exact absurd hcheck (by simp)
        · intro fn2 d hmem
          simp at hmem
      | false =>
        cases hd : (get_data ms0 ["Average", "Sum"] s0 e0 period dataProvider).result with
        | none =>
          simp [main, htime, hm, hd] at hmain
          obtain ⟨h1, h2⟩ := hmain
          subst h1; subst h2
          refine ⟨?_, ?_, ?_, ?_⟩
          · intro h0
            exact absurd h0 (by simp)
          · intro msg hms
            exact absurd hms (by simp)
          · intro s e ms hse hms _ _
            have hs : s0 = s := by injection hse with hse2; exact congrArg Prod.fst hse2
            have he : e0 = e := by injection hse with hse2; exact congrArg Prod.snd hse2
            have hms2 : ms0 = ms := by injection hms
            subst hs; subst he; subst hms2
            exact ⟨rfl, rfl⟩
          · intro fn2 d hmem
            simp at hmem
        | some data0 =>
          simp [main, htime, hm, hd] at hmain
          obtain ⟨h1, h2⟩ := hmain
          subst h1; subst h2
          refine ⟨?_, ?_, ?_, ?_⟩
          · intro h0
            exact absurd h0 (by simp)
          · intro msg hms
            exact absurd hms (by simp)
          · intro s e ms hse hms _ hres
            have hs : s0 = s := by injection hse with hse2; exact congrArg Prod.fst hse2
            have he : e0 = e := by injection hse with hse2; exact congrArg Prod.snd hse2
            have hms2 : ms0 = ms := by injection hms
            subst hs; subst he; subst hms2
            rw [hd] at hres
            exact absurd hres (by simp)
          · intro fn2 d hmem
            simp at hmem
            obtain ⟨hf1, hf2⟩ := hmem
            subst hf1; subst hf2
            exact ⟨rfl, rfl, rfl, s0, e0, ms0, rfl, rfl, hd⟩

/-- Claim C7 witness: a concrete successful non-check run whose trace carries
a file-write event, from which all three phases are recovered as successful. -/
theorem C7_abort_before_write_witness :
    ∃ s e ms, get_time_range none 130 60 = some (s, e)
      ∧ (get_metrics "us-east-1" "" [] onePageProvider 5).2 = Except.ok ms
      ∧ (get_data ms ["Average", "Sum"] s e 60 (fun _ => [(7 : Nat), 8])).result
          = some [{ Data := 7, Metric := cwMetric1 }, { Data := 8, Metric := cwMetric1 }] := by
  have h := C7_abort_before_write Nat none 60 60 130 "us-east-1" "" [] onePageProvider 5
    (fun _ => [7, 8]) false "f"
    (main none 60 60 130 "us-east-1" "" [] onePageProvider 5 (fun _ => [7, 8]) false "f").1
    (main none 60 60 130 "us-east-1" "" [] onePageProvider 5 (fun _ => [7, 8]) false "f").2
    rfl
  have h4 := (h.2.2.2 "f"
    [{ Data := 7, Metric := cwMetric1 }, { Data := 8, Metric := cwMetric1 }]
    (by decide)).2.2.2
  obtain ⟨s, e, ms, h1, h2, h3⟩ := h4
  exact ⟨s, e, ms, h1, h2, h3⟩

/-- Claim C8: with the check flag set, `main` emits exactly the window and
period prints followed by one print per planned (metric, statistic) pair, in
catalog-then-statistics order; no batched statistical-query call is issued
and no file is written. -/
theorem C8_check_mode (α : Type) (time_str : Option (Option Int))
    (interval period now : Int) (region nsp : String) (dims : List (String × String))
    (listProvider : ListMetricsRequest → PyDict) (listFuel : Nat)
    (dataProvider : GetMetricDataRequest → List α) (filename : String)
    (s e : Int) (ms : List Metric)
    (htime : get_time_range time_str now interval = some (s, e))
    (hms : (get_metrics region nsp dims listProvider listFuel).2 = Except.ok ms) :
    main time_str interval period now region nsp dims listProvider listFuel
        dataProvider true filename
      = ([Event.printStart s, Event.printEnd e, Event.printPeriod period]
          ++ ms.flatMap (fun m =>
              [Event.printQuery m "Average", Event.printQuery m "Sum"]), true)
    ∧ (∀ req, Event.queryCall req ∉ (main time_str interval period now region nsp dims
        listProvider listFuel dataProvider true filename).1)
    ∧ (∀ fn2 d, Event.fileWrite fn2 d ∉ (main time_str interval period now region nsp dims
        listProvider listFuel dataProvider true filename).1) := by
  have hq : main time_str interval period now region nsp dims listProvider listFuel
      dataProvider true filename
      = ([Event.printStart s, Event.printEnd e, Event.printPeriod period]
          ++ ms.flatMap (fun m =>
              [Event.printQuery m "Average", Event.printQuery m "Sum"]), true) := by
    simp only [main, htime, hms, if_true]
    rfl
  refine ⟨hq, ?_, ?_⟩
  · intro req hmem
    rw [hq] at hmem
    simp only [List.mem_append, List.mem_cons, List.mem_flatMap,
      List.mem_singleton, List.not_mem_nil] at hmem
    rcases hmem with (h | h | h | h) | ⟨m, _, h | h | h⟩ <;> cases h
  · intro fn2 d hmem
    rw [hq] at hmem
    simp only [List.mem_append, List.mem_cons, List.mem_flatMap,
      List.mem_singleton, List.not_mem_nil] at hmem
    rcases hmem with (h | h | h | h) | ⟨m, _, h | h | h⟩ <;> cases h

/-- Claim C8 witness: a concrete check-mode run prints the window, period and
the two planned query pairs of the one-metric catalog, and its trace carries
no query call and no file write. -/
theorem C8_check_mode_witness :
    main (α := Nat) none 60 60 130 "us-east-1" "" [] onePageProvider 5
        (fun _ => []) true "f"
      = ([Event.printStart 60, Event.printEnd 120, Event.printPeriod 60,
          Event.printQuery cwMetric1 "Average", Event.printQuery cwMetric1 "Sum"], true) := by
  have h := C8_check_mode Nat none 60 60 130 "us-east-1" "" [] onePageProvider 5
    (fun _ => []) "f" 60 120 [cwMetric1] (by decide) rfl
  exact h.1.trans (by decide)

/-- Claim C9: the region argument never reaches the provider client or any
request, so `get_metrics` behaves identically for any two region values (the
region appears only in the message of the connection-failure branch, which a
truthy client object makes unreachable); `get_data` does not take the region
at all. -/
theorem C9_region_independent (r1 r2 nsp : String) (dims : List (String × String))
    (provider : ListMetricsRequest → PyDict) (fuel : Nat) :
    get_metrics r1 nsp dims provider fuel = get_metrics r2 nsp dims provider fuel := rfl

/-- Claim C10: the positional indexing of the correlation step stays in
bounds — and correlation is total — whenever the provider returns at most as
many result entries as descriptors were submitted; without that precondition
the index can exceed the batch, shown by the one-extra-result instance. -/
theorem C10_correlation_bounds :
    (∀ (α : Type) (md : List MetricDataQuery) (rs : List α),
        rs.length ≤ md.length → (correlate md rs).isSome = true)
    ∧ correlate ([] : List MetricDataQuery) ([(0 : Nat)]) = none := by
  constructor
  · intro α md rs h
    obtain ⟨l, hl, _, _⟩ := correlate_go_spec md rs 0 (by omega)
    simp [correlate, hl]
  · rfl

/-- Claim C10 witness: a one-descriptor batch with one result correlates
totally. -/
theorem C10_correlation_bounds_witness :
    (correlate (build_metric_data [cwMetric1] ["Average"] 60) [(5 : Nat)]).isSome = true := by
  exact C10_correlation_bounds.1 Nat (build_metric_data [cwMetric1] ["Average"] 60)
    [5] (by decide)

end CloudwatchDump
